import Mathlib

/-!
Verification of the conversation state machine of a browser chat UI
(`src/src/App.tsx`): message-list management, the send request lifecycle
(pending / success / error), input gating, and clearing.

The component state is `{messages, input, isLoading}`.  The async handler
`handleSend` is embedded in two phases, because the only suspension point
of the program is the single remote call:

* `handleSendStart` — the synchronous prefix of `handleSend`: the guard
  `if (!input.trim() || isLoading) return;`, the optimistic append of the
  user message, clearing the draft, setting `isLoading`, and building the
  request sent to the remote API;
* `handleSendComplete` — the continuation that runs when the remote call
  resolves: appending the model message (reply text, fallback, or the
  fixed error text) via a functional state update, and the
  `finally \x7b setIsLoading(false) \x7d` clause.

`handleSend` composes the two phases back-to-back (no interleaving);
interleavings with `clearChat` are expressed by running the phases
separately.
-/

/-- Message role: `'user' | 'model'` from the `Message` interface. -/
inductive Role
  | user
  | model
deriving DecidableEq, Repr

/-- The `Message` interface of the source: `id`, `role`, `text`,
`timestamp`.  The `Date` timestamp is embedded as a `Nat` (milliseconds,
as produced by `Date.now()`). -/
structure Message where
  id : String
  role : Role
  text : String
  timestamp : Nat
deriving DecidableEq, Repr

/-- The component state: `messages` (`useState<Message[]>([])`),
`input` (`useState('')`), and `isLoading` (`useState(false)`). -/
structure ChatState where
  messages : List Message
  input : String
  isLoading : Bool
deriving DecidableEq, Repr

/-- `parts: [\x7b text \x7d]` entry of the remote request shape. -/
structure ContentPart where
  text : String
deriving DecidableEq, Repr

/-- One `\x7b role, parts: [\x7b text \x7d] \x7d` entry of the request
`contents` array. -/
structure Content where
  role : Role
  parts : List ContentPart
deriving DecidableEq, Repr

/-- The `config` object of the request: `\x7b systemInstruction \x7d`. -/
structure GenConfig where
  systemInstruction : String
deriving DecidableEq, Repr

/-- The argument of `ai.models.generateContent`: model identifier,
ordered `contents`, and `config`. -/
structure GenRequest where
  model : String
  contents : List Content
  config : GenConfig
deriving DecidableEq, Repr

/-- Model of JavaScript `String.prototype.trim`: drop whitespace
characters from both ends of the string.  (Core's `String.trim` is
defined by well-founded recursion on byte positions and does not reduce
definitionally; this structural version over the character list computes
the same string for the whitespace class `Char.isWhitespace`.) -/
def jsTrim (s : String) : String :=
  ⟨((s.data.dropWhile Char.isWhitespace).reverse.dropWhile
      Char.isWhitespace).reverse⟩

/-- The fixed model identifier `"gemini-3-flash-preview"`. -/
def modelId : String := "gemini-3-flash-preview"

/-- The fixed system instruction attached to every request. -/
def systemInstructionText : String :=
  "أنت مساعد ذكي ودود ومفيد. أجب باللغة العربية بأسلوب مهذب وواضح."

/-- The fixed fallback reply used when `response.text` is falsy. -/
def fallbackText : String := "عذراً، لم أتمكن من معالجة طلبك."

/-- The fixed user-facing error message appended on any remote failure. -/
def errorText : String :=
  "حدث خطأ أثناء الاتصال بالذكاء الاصطناعي. يرجى المحاولة مرة أخرى."

/-- Outcome of the awaited remote call: either the promise resolves with a
response whose `text` field is possibly absent (`Option String`), or it
rejects (network error, API error, malformed response — all reach the same
`catch`). -/
inductive RemoteResult
  | success (text : Option String)
  | failure
deriving DecidableEq, Repr

/-- `response.text || 'عذراً، …'`: JavaScript `||` substitutes the fallback
for every falsy value of the string-typed field, i.e. both for an absent
field (`undefined`) and for the empty string. -/
def extractReplyText (t : Option String) : String :=
  match t with
  | none => fallbackText
  | some s => if s = "" then fallbackText else s

/-- The user message built at submission time:
`\x7b id: Date.now().toString(), role: 'user', text: input, timestamp: new Date() \x7d`. -/
def mkUserMessage (s : ChatState) (now : Nat) : Message :=
  { id := toString now, role := Role.user, text := s.input, timestamp := now }

/-- Serialization of one stored message into the remote request shape:
`m => (\x7b role: m.role, parts: [\x7b text: m.text \x7d] \x7d)`. -/
def msgToContent (m : Message) : Content :=
  { role := m.role, parts := [{ text := m.text }] }

/-- Synchronous prefix of `handleSend` (lines 40–65): the guard
`if (!input.trim() || isLoading) return;`, then the optimistic append of
the user message, `setInput('')`, `setIsLoading(true)`, and the request
built from `[...messages, userMessage]` (the history captured before the
append, plus the new user message).  Returns the updated state and, when
a request was actually dispatched, the user message together with the
request. -/
def handleSendStart (s : ChatState) (now : Nat) :
    ChatState × Option (Message × GenRequest) :=
  if jsTrim s.input = "" ∨ s.isLoading = true then (s, none)
  else
    let userMessage := mkUserMessage s now
    let req : GenRequest :=
      { model := modelId
      , contents := (s.messages ++ [userMessage]).map msgToContent
      , config := { systemInstruction := systemInstructionText } }
    ({ messages := s.messages ++ [userMessage], input := "", isLoading := true },
      some (userMessage, req))

/-- Continuation of `handleSend` once the remote call resolves
(lines 67–86): on success append the model message with
`response.text || fallback`, on failure append the fixed error message;
in both paths the append is a functional update on the *current* state
(`setMessages(prev => [...prev, msg])`), and `finally` clears
`isLoading`. -/
def handleSendComplete (s : ChatState) (r : RemoteResult) (now : Nat) :
    ChatState :=
  match r with
  | RemoteResult.success t =>
      let aiMessage : Message :=
        { id := toString (now + 1), role := Role.model
        , text := extractReplyText t, timestamp := now }
      { s with messages := s.messages ++ [aiMessage], isLoading := false }
  | RemoteResult.failure =>
      let errorMessage : Message :=
        { id := toString (now + 1), role := Role.model
        , text := errorText, timestamp := now }
      { s with messages := s.messages ++ [errorMessage], isLoading := false }

/-- The whole `handleSend`, run without interleaving: the synchronous
prefix followed (when a request was dispatched) by the completion applied
to the resulting state.  A rejected send (blank draft or already pending)
performs no state change and dispatches nothing. -/
def handleSend (s : ChatState) (n₁ : Nat) (r : RemoteResult) (n₂ : Nat) :
    ChatState :=
  match handleSendStart s n₁ with
  | (s₁, none) => s₁
  | (s₁, some _) => handleSendComplete s₁ r n₂

/-- `clearChat`: `setMessages([])` — only the message list is reset. -/
def clearChat (s : ChatState) : ChatState :=
  { s with messages := [] }

/-- The `disabled` attribute of the submit button (line 221):
`!input.trim() || isLoading`. -/
def sendButtonDisabled (s : ChatState) : Bool :=
  (jsTrim s.input == "") || s.isLoading

/-- Typing into the draft field: `onChange={...setInput(...)}`. -/
def setInput (s : ChatState) (t : String) : ChatState :=
  { s with input := t }

/-- A sequence of complete send interactions: before each send the user
types a draft, then the send runs to completion with the given remote
outcome. -/
def runSends : ChatState → List (String × RemoteResult) → ChatState
  | s, [] => s
  | s, (d, r) :: rest => runSends (handleSend (setInput s d) 0 r 0) rest

/-- Modelled from the spec words of the success-path claim, for comparison
with the source's `extractReplyText`: the appended text "equals the
response's reply text, or the fixed fallback string when the response
carries no text payload" — i.e. the fallback is used exactly when the
`text` field is absent. -/
def replyOrFallbackSpec (t : Option String) : String :=
  match t with
  | none => fallbackText
  | some str => str

theorem handleSendStart_of_ok (s : ChatState) (n : Nat)
    (h₁ : s.isLoading = false) (h₂ : jsTrim s.input ≠ "") :
    handleSendStart s n =
      ({ messages := s.messages ++ [mkUserMessage s n], input := ""
       , isLoading := true },
        some (mkUserMessage s n,
          { model := modelId
          , contents := (s.messages ++ [mkUserMessage s n]).map msgToContent
          , config := { systemInstruction := systemInstructionText } })) := by
  simp [handleSendStart, h₁, h₂]

theorem handleSend_of_ok (s : ChatState) (n₁ : Nat) (r : RemoteResult)
    (n₂ : Nat) (h₁ : s.isLoading = false) (h₂ : jsTrim s.input ≠ "") :
    handleSend s n₁ r n₂ =
      handleSendComplete
        { messages := s.messages ++ [mkUserMessage s n₁], input := ""
        , isLoading := true } r n₂ := by
  unfold handleSend
  rw [handleSendStart_of_ok s n₁ h₁ h₂]

theorem handleSend_step (s : ChatState) (n₁ : Nat) (r : RemoteResult)
    (n₂ : Nat) (h₁ : s.isLoading = false) (h₂ : jsTrim s.input ≠ "") :
    (handleSend s n₁ r n₂).messages.length = s.messages.length + 2 ∧
    (handleSend s n₁ r n₂).isLoading = false := by
  rw [handleSend_of_ok s n₁ r n₂ h₁ h₂]
  cases r <;> simp [handleSendComplete]

/-- C1: starting from any idle conversation state, a sequence of N sends
that each run to completion — each with a non-blank draft, and each either
succeeding or failing — grows the conversation by exactly 2N messages
(one user message plus one model-role message per send, the model-role
message being the reply on success and the fixed error text on failure),
and leaves the dispatcher idle. -/
theorem conversation_growth (steps : List (String × RemoteResult))
    (s : ChatState) (h₁ : s.isLoading = false)
    (h₂ : ∀ p ∈ steps, jsTrim p.1 ≠ "") :
    (runSends s steps).messages.length =
      s.messages.length + 2 * steps.length ∧
    (runSends s steps).isLoading = false := by
  induction steps generalizing s with
  | nil => exact ⟨by simp [runSends], by simpa [runSends] using h₁⟩
  | cons p rest ih =>
    obtain ⟨d, r⟩ := p
    have hd : jsTrim d ≠ "" := h₂ (d, r) (List.mem_cons_self _ _)
    have hstep := handleSend_step (setInput s d) 0 r 0 h₁ hd
    have hrest := ih (handleSend (setInput s d) 0 r 0) hstep.2
      (fun q hq => h₂ q (List.mem_cons_of_mem _ hq))
    refine ⟨?_, ?_⟩
    · show (runSends (handleSend (setInput s d) 0 r 0) rest).messages.length = _
      rw [hrest.1, hstep.1]
      show s.messages.length + 2 + 2 * rest.length =
        s.messages.length + 2 * (rest.length + 1)
      omega
    · exact hrest.2

theorem conversation_growth_witness :
    ((⟨[], "", false⟩ : ChatState).isLoading = false ∧
      ∀ p ∈ [("hello", RemoteResult.success (some "hi")),
             ("again", RemoteResult.failure)], jsTrim p.1 ≠ "") ∧
    (runSends ⟨[], "", false⟩
        [("hello", RemoteResult.success (some "hi")),
         ("again", RemoteResult.failure)]).messages.length = 0 + 2 * 2 ∧
    (runSends ⟨[], "", false⟩
        [("hello", RemoteResult.success (some "hi")),
         ("again", RemoteResult.failure)]).isLoading = false :=
  ⟨⟨rfl, by decide⟩,
    conversation_growth
      [("hello", RemoteResult.success (some "hi")),
       ("again", RemoteResult.failure)]
      ⟨[], "", false⟩ rfl (by decide)⟩

/-- C4: while a request is pending (`isLoading = true`), a send attempt is
a complete no-op: the guard returns before any state change, so the whole
state — in particular the conversation length and the pending flag — is
unchanged, and no request is dispatched. -/
theorem send_while_pending_noop (s : ChatState) (n₁ : Nat)
    (r : RemoteResult) (n₂ : Nat) (h : s.isLoading = true) :
    handleSend s n₁ r n₂ = s ∧
    (handleSend s n₁ r n₂).messages.length = s.messages.length ∧
    (handleSend s n₁ r n₂).isLoading = s.isLoading ∧
    handleSendStart s n₁ = (s, none) := by
  have hstart : handleSendStart s n₁ = (s, none) := by
    simp [handleSendStart, h]
  have hsend : handleSend s n₁ r n₂ = s := by
    simp [handleSend, hstart]
  exact ⟨hsend, by rw [hsend], by rw [hsend], hstart⟩

theorem send_while_pending_noop_witness :
    (⟨[], "draft", true⟩ : ChatState).isLoading = true ∧
    handleSend ⟨[], "draft", true⟩ 0 RemoteResult.failure 1 =
      ⟨[], "draft", true⟩ :=
  ⟨rfl, (send_while_pending_noop ⟨[], "draft", true⟩ 0
    RemoteResult.failure 1 rfl).1⟩

/-- C5: when the draft is empty or whitespace-only (its trim is the empty
string), a send attempt appends no message and never sets the pending
flag: the guard returns before any state change, so the state is fully
unchanged and no request is dispatched. -/
theorem send_blank_input_noop (s : ChatState) (n₁ : Nat)
    (r : RemoteResult) (n₂ : Nat) (h : jsTrim s.input = "") :
    handleSend s n₁ r n₂ = s ∧
    (handleSend s n₁ r n₂).messages.length = s.messages.length ∧
    (handleSend s n₁ r n₂).isLoading = s.isLoading ∧
    handleSendStart s n₁ = (s, none) := by
  have hstart : handleSendStart s n₁ = (s, none) := by
    simp [handleSendStart, h]
  have hsend : handleSend s n₁ r n₂ = s := by
    simp [handleSend, hstart]
  exact ⟨hsend, by rw [hsend], by rw [hsend], hstart⟩

theorem send_blank_input_noop_witness :
    jsTrim "   " = "" ∧
    handleSend ⟨[], "   ", false⟩ 0 (RemoteResult.success (some "x")) 1 =
      ⟨[], "   ", false⟩ :=
  ⟨by decide, (send_blank_input_noop ⟨[], "   ", false⟩ 0
    (RemoteResult.success (some "x")) 1 (by decide)).1⟩

/-- C6: the submit control's `disabled` attribute is `true` exactly when a
request is pending or the current draft trims to the empty string
(empty or whitespace-only). -/
theorem input_disabled_iff (s : ChatState) :
    sendButtonDisabled s = true ↔
      (s.isLoading = true ∨ jsTrim s.input = "") := by
  simp [sendButtonDisabled, Bool.or_eq_true, beq_iff_eq, or_comm]

/-- C9: clearing always yields a conversation of length 0, whatever the
prior state, and clearing is idempotent. -/
theorem clear_empties_and_idempotent (s : ChatState) :
    (clearChat s).messages.length = 0 ∧
    clearChat (clearChat s) = clearChat s :=
  ⟨rfl, rfl⟩

/-- C2 counterexample: a successful response that carries a *present but
empty* `text` payload refutes the claim as stated.  Sending the draft
"hi" from the empty idle state and resolving with `text = ""` appends a
model message whose text is the fixed fallback, not the response's reply
text `""` — yet the response does carry a text payload, so the claimed
"fallback only when no text payload" clause does not cover it. -/
theorem reply_text_literal_counterexample :
    (some "" : Option String).isSome = true ∧
    replyOrFallbackSpec (some "") = "" ∧
    (handleSend ⟨[], "hi", false⟩ 0
        (RemoteResult.success (some "")) 1).messages.map Message.text =
      ["hi", fallbackText] ∧
    (handleSend ⟨[], "hi", false⟩ 0
        (RemoteResult.success (some "")) 1).messages.map Message.text ≠
      ["hi", replyOrFallbackSpec (some "")] := by
  refine ⟨rfl, rfl, by decide, by decide⟩

/-- C2 (amended): for every send with a non-blank draft issued while idle,
a successful remote call appends exactly one model message, whose text is
the response's reply text when that text is present and non-empty, and
the fixed fallback string when the text payload is absent *or empty*
(`extractReplyText`, the embedding of `response.text || fallback`); the
pending flag is false afterwards. -/
theorem send_success_appends_reply (s : ChatState) (t : Option String)
    (n₁ n₂ : Nat) (h₁ : s.isLoading = false)
    (h₂ : jsTrim s.input ≠ "") :
    (handleSend s n₁ (RemoteResult.success t) n₂).messages =
      s.messages ++ [mkUserMessage s n₁,
        { id := toString (n₂ + 1), role := Role.model
        , text := extractReplyText t, timestamp := n₂ }] ∧
    (∀ str, t = some str → str ≠ "" → extractReplyText t = str) ∧
    (t = none → extractReplyText t = fallbackText) ∧
    (handleSend s n₁ (RemoteResult.success t) n₂).isLoading = false := by
  rw [handleSend_of_ok s n₁ (RemoteResult.success t) n₂ h₁ h₂]
  refine ⟨by simp [handleSendComplete], ?_, ?_, by simp [handleSendComplete]⟩
  · intro str hstr hne
    subst hstr
    simp [extractReplyText, hne]
  · intro hnone
    subst hnone
    rfl

theorem send_success_appends_reply_witness :
    (jsTrim "hello" ≠ "" ∧ (⟨[], "hello", false⟩ : ChatState).isLoading = false) ∧
    (handleSend ⟨[], "hello", false⟩ 7
        (RemoteResult.success (some "hi there")) 9).messages =
      [⟨"7", Role.user, "hello", 7⟩,
       ⟨"10", Role.model, "hi there", 9⟩] ∧
    (handleSend ⟨[], "hello", false⟩ 7
        (RemoteResult.success (some "hi there")) 9).isLoading = false := by
  have h := send_success_appends_reply ⟨[], "hello", false⟩
    (some "hi there") 7 9 rfl (by decide)
  exact ⟨⟨by decide, rfl⟩, by simpa [mkUserMessage, extractReplyText] using h.1,
    h.2.2.2⟩

/-- C3: for every send with a non-blank draft issued while idle, a failed
remote call appends exactly one message in the model role carrying the
fixed user-facing error text, and the pending flag is false afterwards.
The rejected promise is embedded as the ordinary value
`RemoteResult.failure` of the total function `handleSend` — every failure
reaches the `catch` block and yields a state, never an escaping
exception. -/
theorem send_failure_appends_error (s : ChatState) (n₁ n₂ : Nat)
    (h₁ : s.isLoading = false) (h₂ : jsTrim s.input ≠ "") :
    (handleSend s n₁ RemoteResult.failure n₂).messages =
      s.messages ++ [mkUserMessage s n₁,
        { id := toString (n₂ + 1), role := Role.model
        , text := errorText, timestamp := n₂ }] ∧
    (handleSend s n₁ RemoteResult.failure n₂).isLoading = false := by
  rw [handleSend_of_ok s n₁ RemoteResult.failure n₂ h₁ h₂]
  exact ⟨by simp [handleSendComplete], by simp [handleSendComplete]⟩

theorem send_failure_appends_error_witness :
    (jsTrim "test" ≠ "" ∧ (⟨[], "test", false⟩ : ChatState).isLoading = false) ∧
    (handleSend ⟨[], "test", false⟩ 2 RemoteResult.failure 3).messages =
      [⟨"2", Role.user, "test", 2⟩, ⟨"4", Role.model, errorText, 3⟩] ∧
    (handleSend ⟨[], "test", false⟩ 2 RemoteResult.failure 3).isLoading =
      false := by
  have h := send_failure_appends_error ⟨[], "test", false⟩ 2 3 rfl (by decide)
  exact ⟨⟨by decide, rfl⟩, by simpa [mkUserMessage] using h.1, h.2⟩

/-- C7: clearing the conversation while a request is in flight does not
cancel it.  Concrete interleaving: from the empty idle state, sending
"hi" dispatches a request and sets pending; `clearChat` then empties the
conversation while pending stays set; when the in-flight request later
resolves, its completion still runs and appends the late model reply to
the already-cleared conversation. -/
theorem clear_mid_flight_race :
    ((handleSendStart ⟨[], "hi", false⟩ 0).1.isLoading = true ∧
      (handleSendStart ⟨[], "hi", false⟩ 0).1.messages.length = 1) ∧
    (clearChat (handleSendStart ⟨[], "hi", false⟩ 0).1).messages = [] ∧
    (clearChat (handleSendStart ⟨[], "hi", false⟩ 0).1).isLoading = true ∧
    (handleSendComplete (clearChat (handleSendStart ⟨[], "hi", false⟩ 0).1)
        (RemoteResult.success (some "late reply")) 5).messages.map
      Message.text = ["late reply"] ∧
    (handleSendComplete (clearChat (handleSendStart ⟨[], "hi", false⟩ 0).1)
        (RemoteResult.success (some "late reply")) 5).messages.map
      Message.role = [Role.model] := by
  refine ⟨⟨by decide, by decide⟩, by decide, by decide, by decide, by decide⟩

/-- C8: every dispatched request serializes the full message history —
the prior conversation plus the newly appended user message, in
conversation order — into `\x7b role, parts: [\x7b text \x7d] \x7d` entries, with
the fixed system instruction in the request configuration and the fixed
model identifier. -/
theorem request_serializes_history (s : ChatState) (n : Nat)
    (h₁ : s.isLoading = false) (h₂ : jsTrim s.input ≠ "") :
    ∃ u req, handleSendStart s n =
        ({ messages := s.messages ++ [u], input := "", isLoading := true },
          some (u, req)) ∧
      u = mkUserMessage s n ∧
      req.model = modelId ∧
      req.config = { systemInstruction := systemInstructionText } ∧
      req.contents = (s.messages ++ [u]).map msgToContent :=
  ⟨mkUserMessage s n,
    { model := modelId
    , contents := (s.messages ++ [mkUserMessage s n]).map msgToContent
    , config := { systemInstruction := systemInstructionText } },
    handleSendStart_of_ok s n h₁ h₂, rfl, rfl, rfl, rfl⟩

theorem request_serializes_history_witness :
    (jsTrim "hello" ≠ "" ∧
      (⟨[⟨"0", Role.user, "hey", 0⟩, ⟨"1", Role.model, "yo", 1⟩], "hello",
        false⟩ : ChatState).isLoading = false) ∧
    ∃ u req,
      handleSendStart
          ⟨[⟨"0", Role.user, "hey", 0⟩, ⟨"1", Role.model, "yo", 1⟩],
            "hello", false⟩ 3 =
        ({ messages := [⟨"0", Role.user, "hey", 0⟩,
            ⟨"1", Role.model, "yo", 1⟩] ++ [u], input := ""
          , isLoading := true }, some (u, req)) ∧
      u = mkUserMessage
        ⟨[⟨"0", Role.user, "hey", 0⟩, ⟨"1", Role.model, "yo", 1⟩],
          "hello", false⟩ 3 ∧
      req.model = modelId ∧
      req.config = { systemInstruction := systemInstructionText } ∧
      req.contents = (([⟨"0", Role.user, "hey", 0⟩,
        ⟨"1", Role.model, "yo", 1⟩] : List Message) ++ [u]).map msgToContent :=
  ⟨⟨by decide, rfl⟩,
    request_serializes_history
      ⟨[⟨"0", Role.user, "hey", 0⟩, ⟨"1", Role.model, "yo", 1⟩],
        "hello", false⟩ 3 rfl (by decide)⟩

/-- C10: a successful response whose `text` field is present but equal to
the empty string still yields the fixed fallback as the appended model
message's text — JavaScript `response.text || fallback` substitutes the
fallback for every falsy value, not only for an absent payload. -/
theorem empty_text_gets_fallback (s : ChatState) (n₁ n₂ : Nat)
    (h₁ : s.isLoading = false) (h₂ : jsTrim s.input ≠ "") :
    ((handleSend s n₁ (RemoteResult.success (some "")) n₂).messages.getLast?).map
        Message.text = some fallbackText ∧
    extractReplyText (some "") = fallbackText ∧
    extractReplyText none = fallbackText := by
  rw [handleSend_of_ok s n₁ (RemoteResult.success (some "")) n₂ h₁ h₂]
  refine ⟨?_, rfl, rfl⟩
  simp [handleSendComplete, extractReplyText]

theorem empty_text_gets_fallback_witness :
    (jsTrim "test" ≠ "" ∧ (⟨[], "test", false⟩ : ChatState).isLoading = false) ∧
    ((handleSend ⟨[], "test", false⟩ 0
        (RemoteResult.success (some "")) 1).messages.getLast?).map
      Message.text = some fallbackText :=
  ⟨⟨by decide, rfl⟩,
    (empty_text_gets_fallback ⟨[], "test", false⟩ 0 1 rfl (by decide)).1⟩
